import Mathlib

/-!
# Verification of the SIM868 driver (sim868.h / sim868.c)

A shallow embedding of the SIM868 cellular+GNSS modem driver.  The modem
side of the serial link is modelled as a script of reply lines consumed in
order; every AT command written to the link is recorded in a trace.  C
strings are embedded as `String` / `List Char`, the fixed-width unsigned
integers as `Nat` with an explicit `% 2^w` wherever the C code can wrap.
-/

namespace SIM868

/-! ## Error codes (sim868.c defines) -/

def NO_ERROR : Nat := 0
def ERROR_AUTOBAUD_MODE : Nat := 1
def ERROR_SIMCARD_STATUS : Nat := 2
def ERROR_SIMCARD_PIN : Nat := 3
def ERROR_NETWORK_RSSI : Nat := 4
def ERROR_NETWORK_REGISTRATION : Nat := 5
def ERROR_GPRS_SERVICE : Nat := 6
def ERROR_GPRS_CONTEXT : Nat := 7
def ERROR_REPLY : Nat := 8
def ERROR_HTTP_SERVICE : Nat := 9
def ERROR_HTTP_REQUEST : Nat := 10
def ERROR_HTTP_STATUS_CODE : Nat := 11
def ERROR_JSON_STRUCTURE : Nat := 12
def ERROR_GNSS_FIX : Nat := 13
def ERROR_POWER_STATE : Nat := 14

/-! ## Protocol constants -/

def REPLY_BUFFER_LENGTH : Nat := 255

def CONNECTING : Nat := 0
def CONNECTED : Nat := 1
def CLOSING : Nat := 2
def CLOSED : Nat := 3

def GET : Nat := 0
def POST : Nat := 1

def HTTP_OK : Nat := 200
def CREATED : Nat := 201

def NOT_REGISTERED : Nat := 0
def REGISTERED_HOME_NET : Nat := 1
def SEARCHING : Nat := 2
def REGISTRATION_DENIED : Nat := 3
def REGISTRED_NO_HOME_NET : Nat := 5

/-! ## C string primitives

The driver manipulates NUL-terminated byte strings with `strstr`, `strchr`,
`strtok`, `atoi` and `atof`.  We embed them over `List Char`. -/

/-- C `isspace` on the default locale: the characters `atoi` skips. -/
def isSpaceC (c : Char) : Bool :=
  c = ' ' || c = '\t' || c = '\n' || c = '\x0b' || c = '\x0c' || c = '\r'

/-- Fold a run of leading decimal digits into a natural number. -/
def digitsVal : List Char → Nat → Nat
  | [], acc => acc
  | c :: cs, acc =>
      if c.isDigit then digitsVal cs (acc * 10 + (c.toNat - '0'.toNat))
      else acc

/-- C `atoi`: skip whitespace, optional sign, leading decimal digits. -/
def atoi (s : List Char) : Int :=
  let s := s.dropWhile (fun c => isSpaceC c)
  match s with
  | '-' :: rest => - (digitsVal (rest.takeWhile Char.isDigit) 0 : Int)
  | '+' :: rest => (digitsVal (rest.takeWhile Char.isDigit) 0 : Int)
  | _ => (digitsVal (s.takeWhile Char.isDigit) 0 : Int)

/-- Store an `int` through a `uint16_t *`: reduce modulo `2^16`. -/
def toU16 (v : Int) : Nat := (v % 65536).toNat

/-- C `strstr` followed by `p += strlen(needle)`: the suffix of `hay`
beginning right after the first occurrence of `needle`, if any. -/
def strstrAfter (hay needle : List Char) : Option (List Char) :=
  match hay with
  | [] => if needle = [] then some [] else none
  | _ :: tl =>
      if needle.isPrefixOf hay then some (hay.drop needle.length)
      else strstrAfter tl needle

/-- One `strchr`+`p++` step of `parse_reply`'s divider loop: drop up to and
through the first occurrence of `divider` (C returns NULL if absent). -/
def strchrNext (s : List Char) (divider : Char) : Option (List Char) :=
  match s with
  | [] => none
  | c :: tl => if c = divider then some tl else strchrNext tl divider

/-- The `for (i=0; i<index; i++)` loop of `parse_reply`: skip `index`
occurrences of `divider`, failing if the dividers run out. -/
def skipDividers (s : List Char) (divider : Char) : Nat → Option (List Char)
  | 0 => some s
  | n + 1 =>
      match strchrNext s divider with
      | none => none
      | some rest => skipDividers rest divider n

/-- C `strtok(p, ",")` on a fresh string: skip leading `','` delimiters and
return the first token; `none` when the string is all delimiters (C
returns NULL). -/
def strtokFirst (s : List Char) : Option (List Char) :=
  let r := s.dropWhile (fun c => c = ',')
  if r = [] then none else some (r.takeWhile (fun c => c ≠ ','))

/-! ## Reply parser (`parse_reply`) -/

/-- Outcome of `parse_reply`.  `undef` marks the path where the C code
passes `strtok`'s NULL result to `atoi`, which is undefined behavior. -/
inductive ParseResult where
  | replyError : ParseResult
  | undef : ParseResult
  | ok (v : Nat) : ParseResult
deriving DecidableEq, Repr

/-- `parse_reply(reply, v, divider, index)` from sim868.c: locate `token` in
the session buffer, skip `index` occurrences of `divider` past the token's
end, then — whenever more than one character remains — take the first
`strtok(p, ",")` token (note: the literal `","`, not `divider`) and store
`atoi` of it through a `uint16_t *`. -/
def parse_reply (buffer token : String) (divider : Char) (index : Nat) :
    ParseResult :=
  match strstrAfter buffer.data token.data with
  | none => ParseResult.replyError
  | some p =>
      match skipDividers p divider index with
      | none => ParseResult.replyError
      | some q =>
          if q.length > 1 then
            match strtokFirst q with
            | none => ParseResult.undef
            | some tok => ParseResult.ok (toU16 (atoi tok))
          else ParseResult.ok (toU16 (atoi q))

/-! ## Modem session state

The modem side of the serial link is a script of reply lines consumed in
order.  `buffer` is `g_sim_buffer` at line granularity (the command layer
only ever reads whole captured lines), `sent` records every AT command
written to the link, `http_status_code`/`http_buffer` are the HTTP globals.
`initCalls`/`startCalls` are ghost observation counters bumped on entry to
`http_init`/`http_start`; they do not influence any behavior. -/

structure SimState where
  replies : List String
  buffer : String
  sent : List String
  http_status_code : Nat
  http_buffer : String
  initCalls : Nat
  startCalls : Nat
deriving DecidableEq, Repr

/-- `get_reply(at, time_out)`: clear the input, write the command + CRLF,
and capture one line into the session buffer.  At line granularity the
captured line is the next scripted reply; an exhausted script is a timeout,
which leaves the (cleared) buffer as the empty string. -/
def get_reply (at_ : String) (s : SimState) : SimState :=
  { s with
    buffer := s.replies.headD ""
    replies := s.replies.tail
    sent := s.sent ++ [at_] }

/-- `send_check_reply(at, reply, time_out)`: `true` means mismatch (the C
function returns `!(strcmp(g_sim_buffer, reply) == 0)`). -/
def send_check_reply (at_ reply : String) (s : SimState) : Bool × SimState :=
  let s' := get_reply at_ s
  (!(s'.buffer = reply), s')

/-- `send_parse_reply(at, reply, v, divider, index, time_out)`: the value is
`some v` on a successful parse and `none` on `ERROR_REPLY`.  On the
parser's `undef` path the C program's behavior is undefined (`atoi(NULL)`);
no theorem below depends on that branch, which we also map to `none`. -/
def send_parse_reply (at_ reply : String) (divider : Char) (index : Nat)
    (s : SimState) : Option Nat × SimState :=
  let s' := get_reply at_ s
  match parse_reply s'.buffer reply divider index with
  | ParseResult.ok v => (some v, s')
  | ParseResult.replyError => (none, s')
  | ParseResult.undef => (none, s')

/-! ## Network registration FSM -/

/-- `gprs_network_rssi`: query `AT+CSQ`, parse field 0 after `"+CSQ: "`,
then apply the window check `if (state < 9 && state > 32)` literally as
written in the source. -/
def gprs_network_rssi (s : SimState) : Nat × SimState :=
  match send_parse_reply "AT+CSQ" "+CSQ: " ',' 0 s with
  | (none, s') => (ERROR_REPLY, s')
  | (some state, s') =>
      if state < 9 ∧ state > 32 then (ERROR_NETWORK_RSSI, s')
      else (NO_ERROR, s')

/-- One iteration of the `gsm_network_registration` polling loop: poll
`AT+CREG?` (return value ignored, so a failed parse leaves `status` at its
previous value), then the `switch (status)`.  `status`/`errStatus` thread
the local variables. -/
def regPoll (status errStatus : Nat) (s : SimState) :
    Nat × Nat × SimState :=
  let (r, s') := send_parse_reply "AT+CREG?" "+CREG: " ',' 1 s
  let status' := r.getD status
  let err' :=
    if status' = NOT_REGISTERED then ERROR_NETWORK_REGISTRATION
    else if status' = REGISTERED_HOME_NET then NO_ERROR
    else if status' = REGISTRED_NO_HOME_NET then NO_ERROR
    else if status' = SEARCHING then errStatus
    else if status' = REGISTRATION_DENIED then errStatus
    else ERROR_REPLY
  (status', err', s')

/-- The inner `while (seconds > 0)` loop: poll, then `seconds -= 15`. -/
def regInner : Nat → Nat × Nat × SimState → Nat × Nat × SimState
  | 0, acc => acc
  | seconds + 1, (st, err, s) =>
      regInner (seconds + 1 - 15) (regPoll st err s)
  termination_by seconds _ => seconds
  decreasing_by simp_wf; omega

/-- `gsm_network_registration`: two outer rounds, each an inner loop from
`seconds = 30` in steps of 15 (so two polls per round).  `status` and
`error_status` are uninitialized locals in the C code, passed here as
parameters. -/
def gsm_network_registration (status₀ errStatus₀ : Nat) (s : SimState) :
    Nat × SimState :=
  let r1 := regInner 30 (status₀, errStatus₀, s)
  let r2 := regInner 30 r1
  (r2.2.1, r2.2.2)

/-! ## Bearer (GPRS) lifecycle -/

/-- `Bearer_Service`: the APN configuration (`gs_bearer_config`). -/
structure Bearer_Service where
  apn : String
  user : String
  pwd : String

/-- `gprs_query`: bearer status via `AT+SAPBR=2,1` field 1; note the C
function returns the error code `ERROR_REPLY` (8) *as the status value*
when the parse fails. -/
def gprs_query (s : SimState) : Nat × SimState :=
  match send_parse_reply "AT+SAPBR=2,1" "+SAPBR: " ',' 1 s with
  | (none, s') => (ERROR_REPLY, s')
  | (some v, s') => (v, s')

/-- The five commands of the bearer open sequence, with the `sprintf`-built
APN/USER/PWD parameter commands. -/
def contypeCmd : String := "AT+SAPBR=3,1,\"CONTYPE\",\"GPRS\""

def apnCmd (cfg : Bearer_Service) : String :=
  "AT+SAPBR=3,1,\"APN\",\"" ++ cfg.apn ++ "\""

def userCmd (cfg : Bearer_Service) : String :=
  "AT+SAPBR=3,1,\"USER\",\"" ++ cfg.user ++ "\""

def pwdCmd (cfg : Bearer_Service) : String :=
  "AT+SAPBR=3,1,\"PWD\",\"" ++ cfg.pwd ++ "\""

def openBearerCmd : String := "AT+SAPBR=1,1"

def closeBearerCmd : String := "AT+SAPBR=0,1"

/-- `SIM868_gprs_enable(state)`: attach query, optional attach, bearer
query, then the open / close branches and the final optional detach.
`error_status` is only ever *assigned* (never returned) on the
close-confirm path in the C source, so it does not appear here. -/
def SIM868_gprs_enable (cfg : Bearer_Service) (state : Bool)
    (s : SimState) : Nat × SimState :=
  match send_parse_reply "AT+CGATT?" "+CGATT: " ',' 0 s with
  | (none, s') => (ERROR_REPLY, s')
  | (some module_state, s₁) =>
      let attach := state ∧ module_state = 0
      let (attachFail, s₂) :=
        if attach then send_check_reply "AT+CGATT=1" "OK" s₁
        else (false, s₁)
      if attachFail then (ERROR_GPRS_SERVICE, s₂)
      else
        let (bearer_state, s₃) := gprs_query s₂
        let openIt := state ∧ bearer_state = CLOSED
        let closeIt := ¬state ∧ bearer_state = CONNECTED
        let after :=
          if openIt then
            let (f1, t₁) := send_check_reply contypeCmd "OK" s₃
            if f1 then (some ERROR_REPLY, t₁)
            else
              let (f2, t₂) := send_check_reply (apnCmd cfg) "OK" t₁
              if f2 then (some ERROR_REPLY, t₂)
              else
                let (f3, t₃) := send_check_reply (userCmd cfg) "OK" t₂
                if f3 then (some ERROR_REPLY, t₃)
                else
                  let (f4, t₄) := send_check_reply (pwdCmd cfg) "OK" t₃
                  if f4 then (some ERROR_REPLY, t₄)
                  else
                    let (f5, t₅) := send_check_reply openBearerCmd "OK" t₄
                    if f5 then (some ERROR_GPRS_CONTEXT, t₅)
                    else
                      let (q, t₆) := gprs_query t₅
                      if q ≠ CONNECTED then (some ERROR_GPRS_CONTEXT, t₆)
                      else (none, t₆)
          else if closeIt then
            let (f1, t₁) := send_check_reply closeBearerCmd "OK" s₃
            if f1 then (some ERROR_GPRS_CONTEXT, t₁)
            else
              let (_, t₂) := gprs_query t₁
              (none, t₂)
          else (none, s₃)
        match after with
        | (some e, s₄) => (e, s₄)
        | (none, s₄) =>
            let detach := ¬state ∧ module_state ≠ 0
            let (detachFail, s₅) :=
              if detach then send_check_reply "AT+CGATT=0" "OK" s₄
              else (false, s₄)
            if detachFail then (ERROR_GPRS_SERVICE, s₅)
            else (NO_ERROR, s₅)

/-! ## HTTP session FSM -/

/-- `Http_Header`: the caller-populated header parameters
(`gs_http_header`). -/
structure Http_Header where
  user_agent : String
  user_data : String
  content_type : String
  root : String
  web_service : String
  json_structure : String

/-- A bare `read_line(time_out, SINGLE_LINE)` (no command written): capture
the next line into the session buffer. -/
def read_line_capture (s : SimState) : SimState :=
  { s with
    buffer := s.replies.headD ""
    replies := s.replies.tail }

/-- `http_init`: terminate any pending session (result ignored), start the
HTTP service, then set the five header parameters; the first failing step
returns its error.  Entry bumps the ghost counter `initCalls`. -/
def http_init (hdr : Http_Header) (s : SimState) : Nat × SimState :=
  let s := { s with initCalls := s.initCalls + 1 }
  let (_, s₀) := send_check_reply "AT+HTTPTERM" "OK" s
  let (f1, s₁) := send_check_reply "AT+HTTPINIT" "OK" s₀
  if f1 then (ERROR_HTTP_SERVICE, s₁)
  else
    let (f2, s₂) := send_check_reply "AT+HTTPPARA=\"CID\",1" "OK" s₁
    if f2 then (ERROR_REPLY, s₂)
    else
      let (f3, s₃) :=
        send_check_reply ("AT+HTTPPARA=\"UA\",\"" ++ hdr.user_agent ++ "\"")
          "OK" s₂
      if f3 then (ERROR_REPLY, s₃)
      else
        let (f4, s₄) :=
          send_check_reply
            ("AT+HTTPPARA=\"CONTENT\",\"" ++ hdr.content_type ++ "\"")
            "OK" s₃
        if f4 then (ERROR_REPLY, s₄)
        else
          let (f5, s₅) :=
            send_check_reply
              ("AT+HTTPPARA=\"USERDATA\",\"" ++ hdr.user_data ++ "\"")
              "OK" s₄
          if f5 then (ERROR_REPLY, s₅)
          else
            let (f6, s₆) :=
              send_check_reply
                ("AT+HTTPPARA=\"URL\",\"" ++ hdr.root ++ hdr.web_service
                  ++ "\"") "OK" s₅
            if f6 then (ERROR_REPLY, s₆)
            else (NO_ERROR, s₆)

/-- The payload-declaration command of the POST branch, a literal in the
source: `send_check_reply("AT+HTTPDATA=200,8000", "DOWNLOAD", ...)`. -/
def httpDataCmd : String := "AT+HTTPDATA=200,8000"

/-- `http_action(time_out, method)`: for POST, declare the payload and
stream the JSON structure; then issue `AT+HTTPACTION=<method>`, capture the
status line, parse the numeric status, and accept only 200/201 (any other
value is retained in `g_http_status_code`). -/
def http_action (method : Nat) (hdr : Http_Header) (s : SimState) :
    Nat × SimState :=
  let post := method ≠ 0
  let (postFail, postErr, s₂) :=
    if post then
      let (f1, s₀) := send_check_reply httpDataCmd "DOWNLOAD" s
      if f1 then (true, ERROR_REPLY, s₀)
      else
        let (f2, s₁) := send_check_reply hdr.json_structure "OK" s₀
        if f2 then (true, ERROR_JSON_STRUCTURE, s₁)
        else (false, NO_ERROR, s₁)
    else (false, NO_ERROR, s)
  if postFail then (postErr, s₂)
  else
    let (f3, s₃) :=
      send_check_reply ("AT+HTTPACTION=" ++ toString method) "OK" s₂
    if f3 then (ERROR_HTTP_REQUEST, s₃)
    else
      let s₄ := read_line_capture s₃
      match parse_reply s₄.buffer "+HTTPACTION: " ',' 1 with
      | ParseResult.replyError => (ERROR_REPLY, s₄)
      | ParseResult.undef => (ERROR_REPLY, s₄)
      | ParseResult.ok status =>
          if status = HTTP_OK ∨ status = CREATED then (NO_ERROR, s₄)
          else (ERROR_HTTP_STATUS_CODE,
                { s₄ with http_status_code := status })

/-- `http_read_all`: issue `AT+HTTPREAD`, require the `"+HTTPREAD: "`
marker in the captured line, then capture the payload line and copy it into
the HTTP buffer. -/
def http_read_all (s : SimState) : Nat × SimState :=
  let s₀ := get_reply "AT+HTTPREAD" s
  if strstrAfter s₀.buffer.data "+HTTPREAD: ".data = none then
    (ERROR_REPLY, s₀)
  else
    let s₁ := read_line_capture s₀
    (NO_ERROR, { s₁ with http_buffer := s₁.buffer })

/-- `http_start(method)`: Action with a 30 s window, ReadAll, then
Terminate; the first failing step returns its error.  Entry bumps the
ghost counter `startCalls`. -/
def http_start (method : Nat) (hdr : Http_Header) (s : SimState) :
    Nat × SimState :=
  let s := { s with startCalls := s.startCalls + 1 }
  let (e₁, s₁) := http_action method hdr s
  if e₁ ≠ NO_ERROR then (e₁, s₁)
  else
    let (e₂, s₂) := http_read_all s₁
    if e₂ ≠ NO_ERROR then (e₂, s₂)
    else
      let (f, s₃) := send_check_reply "AT+HTTPTERM" "OK" s₂
      if f then (ERROR_REPLY, s₃)
      else (NO_ERROR, s₃)

/-- Outcome of one of `SIM868_http_send_request`'s retry loops: `done` when
the loop finished (break on success, or zero iterations) carrying the
`error_status` local (`none` models the uninitialized variable), `exit`
when the loop returned early with its exhaustion error. -/
inductive LoopResult where
  | done (errStatus : Option Nat) (s : SimState)
  | exit (err : Nat) (s : SimState)

/-- The first retry loop, `while (attempts--) { http_init; ... }`: the C
test reads the counter and then decrements, so entering with `n + 1` runs
the body with the decremented counter `n`; `if (attempts == 0) return
ERROR_HTTP_SERVICE;` fires when the budget is spent. -/
def initLoop (hdr : Http_Header) (errStatus : Option Nat) :
    Nat → SimState → LoopResult
  | 0, s => LoopResult.done errStatus s
  | n + 1, s =>
      let (e, s') := http_init hdr s
      if e = NO_ERROR then LoopResult.done (some e) s'
      else if n = 0 then LoopResult.exit ERROR_HTTP_SERVICE s'
      else initLoop hdr (some e) n s'

/-- The second retry loop.  Its failure branch decrements *again*
(`if (attempts-- == 0) return ERROR_HTTP_REQUEST;`), so each failing
iteration consumes two units of budget. -/
def startLoop (method : Nat) (hdr : Http_Header) (errStatus : Option Nat) :
    Nat → SimState → LoopResult
  | 0, s => LoopResult.done errStatus s
  | n + 1, s =>
      let (e, s') := http_start method hdr s
      if e = NO_ERROR then LoopResult.done (some e) s'
      else if n = 0 then LoopResult.exit ERROR_HTTP_REQUEST s'
      else startLoop method hdr (some e) (n - 1) s'

/-- `SIM868_http_send_request(method, max_attempts)`: the Init loop, then
the Start loop, each with budget `max_attempts`; the returned value is the
`error_status` local, which is uninitialized (`none`) when neither loop
body ever ran. -/
def SIM868_http_send_request (method maxAttempts : Nat) (hdr : Http_Header)
    (s : SimState) : Option Nat × SimState :=
  match initLoop hdr none maxAttempts s with
  | LoopResult.exit e s' => (some e, s')
  | LoopResult.done err₁ s' =>
      match startLoop method hdr err₁ maxAttempts s' with
      | LoopResult.exit e s'' => (some e, s'')
      | LoopResult.done err₂ s'' => (err₂, s'')

/-! ## Line reader (`read_line`), byte level

For the buffer-safety analysis `read_line` is embedded at byte level: the
incoming serial data is a list of chunks, one chunk per polling tick
(`_sim_data_available()` / `_sim_read_buffer()` drain one chunk inside one
outer iteration).  Instead of a mutable 255-byte array we record every
store `g_sim_buffer[reply_idx] = c` as a `(index, char)` pair, plus the
index of the closing `g_sim_buffer[reply_idx] = 0`; the C index
`reply_idx` is a `uint8_t`, hence the explicit `% 256`. -/

structure ReadLineTrace where
  writes : List (Nat × Char)
  termIdx : Nat
deriving DecidableEq, Repr

/-- The inner `while (_sim_data_available())` loop over one tick's bytes:
skip `'\r'`, skip a first-position `'\n'`, and in single-line mode a later
`'\n'` zeroes the timeout and breaks; every other byte is stored and the
index incremented.  Returns the new index, the accumulated writes and
whether the `'\n'` break fired. -/
def rlInner (lines : Bool) :
    List Char → Nat → List (Nat × Char) → Nat × List (Nat × Char) × Bool
  | [], idx, w => (idx, w, false)
  | c :: cs, idx, w =>
      if c = '\r' then rlInner lines cs idx w
      else if c = '\n' ∧ idx = 0 then rlInner lines cs idx w
      else if c = '\n' ∧ lines = false then (idx, w, true)
      else rlInner lines cs ((idx + 1) % 256) (w ++ [(idx, c)])

/-- The outer `while (time_out--)` loop of `read_line`: the capacity test
`if (reply_idx > REPLY_BUFFER_LENGTH) break;` is kept exactly as written
(on a `uint8_t` index it can never fire), one chunk is drained per tick,
and exit always performs the closing NUL store at the current index. -/
def rlOuter (lines : Bool) :
    Nat → List (List Char) → Nat → List (Nat × Char) → ReadLineTrace
  | 0, _, idx, w => ⟨w, idx⟩
  | t + 1, chunks, idx, w =>
      if idx > REPLY_BUFFER_LENGTH then ⟨w, idx⟩
      else
        let (idx', w', term) := rlInner lines (chunks.headD []) idx w
        if term ∨ t = 0 then ⟨w', idx'⟩
        else rlOuter lines t chunks.tail idx' w'

/-- `read_line(time_out, lines)` from an empty buffer position. -/
def read_line (timeout : Nat) (lines : Bool) (chunks : List (List Char)) :
    ReadLineTrace :=
  rlOuter lines timeout chunks 0 []

/-! ## GNSS fix parser (`SIM868_gnss_get_data`) -/

/-- The character-level scan of C `atof`: optional whitespace and sign,
decimal digits, optional fraction.  Returns (negative?, integer-part
value, fraction-part value, fraction length). -/
def atofScan (s : List Char) : Bool × Nat × Nat × Nat :=
  let s := s.dropWhile (fun c => isSpaceC c)
  let neg : Bool := match s with | '-' :: _ => true | _ => false
  let s := match s with
    | '-' :: r => r
    | '+' :: r => r
    | _ => s
  let intPart := s.takeWhile Char.isDigit
  let rest := s.drop intPart.length
  let frac := match rest with
    | '.' :: r => r.takeWhile Char.isDigit
    | _ => []
  (neg, digitsVal intPart 0, digitsVal frac 0, frac.length)

/-- C `atof` on the shapes produced by the RMC tokenizer: the scanned
decimal value as a rational. -/
def atofQ (s : List Char) : ℚ :=
  let (neg, ip, fp, fl) := atofScan s
  let v : ℚ := (ip : ℚ) + (fp : ℚ) / ((10 : ℚ) ^ fl)
  if neg then -v else v

/-- Successive `strtok(NULL, ",")` calls: the maximal runs of non-comma
characters, in order (consecutive commas yield no empty tokens). -/
def strtokAll (s : List Char) : List (List Char) :=
  (s.splitOn ',').filter (fun t => t ≠ [])

/-- `gs_gnss_data_time` (all fields are `uint8_t` in the struct). -/
structure GNSS_Data_Time where
  seconds : Nat
  minutes : Nat
  hour : Nat
  day : Nat
  month : Nat
  year : Nat
deriving DecidableEq, Repr

/-- The outputs of a complete `SIM868_gnss_get_data` run: the two `float *`
position outputs, the `uint8_t *` speed output, and the date-time
globals. -/
structure GnssData where
  lat : ℚ
  lon : ℚ
  speed_kph : Nat
  time : GNSS_Data_Time
deriving DecidableEq, Repr

def g_utc_hours : List Nat := [0, 1, 2, 3, 4, 5]

def g_fix_hours : List Nat := [18, 19, 20, 21, 22, 23]

def g_last_day_month : List Nat :=
  [0, 31, 28, 31, 30, 31, 30, 31, 31, 30, 31, 30, 31]

/-- The `minutes == 59` speculative hour bump applied before the timezone
offset: below 23 the hour is incremented, at 23 it wraps to 0. -/
def bumpHour (minutes hour : Nat) : Nat :=
  if minutes = 59 then (if hour < 23 then hour + 1 else 0) else hour

/-- The UTC-6 adjustment: hours `≥ 6` are shifted down, smaller hours are
mapped through `g_utc_hours`/`g_fix_hours` by the literal
`for (i = 0; i < 6; i++)` loop and flag the previous-day rollback. -/
def utcOffsetHour (hour : Nat) : Nat × Bool :=
  if hour ≥ 6 then (hour - 6, false)
  else
    let h := (List.range 6).foldl
      (fun h i => if h = g_utc_hours.getD i 0 then g_fix_hours.getD i 0
                  else h) hour
    (h, true)

/-- The day-rollback block: on day 1 the month is decremented (January
wraps to December with the year decremented) and the day is set by the
literal `for (i = 0; i < 13; i++)` scan of `g_last_day_month`; otherwise
the day is decremented.  `day`/`year` are `uint8_t`, hence `% 256` on the
decrements. -/
def rollbackDate (day month year : Nat) : Nat × Nat × Nat :=
  if day = 1 then
    let my : Nat × Nat :=
      if month > 1 then (month - 1, year) else (12, (year + 255) % 256)
    let d := (List.range 13).foldl
      (fun d i => if my.1 = i then g_last_day_month.getD i 0 else d) day
    (d, my.1, my.2)
  else ((day + 255) % 256, month, year)

/-- `atoi` of a two-character slice of the copied time/date token (the C
code reads exactly two `char`s for each field). -/
def twoDigit (s : List Char) (off : Nat) : Nat :=
  toU16 (atoi ((s.drop off).take 2)) % 256

/-- The degrees+decimal-minutes decode shared by latitude and longitude:
whole degrees are `floor(value / 100)` and the remainder is minutes. -/
def degMinDecode (v : ℚ) : ℚ :=
  let degrees := (⌊v / 100⌋ : ℚ)
  let minutes := (v - 100 * degrees) / 60
  degrees + minutes

/-- Double-to-`uint8_t` store of the speed: truncation of the nonnegative
product (negative speeds would be undefined behavior in C). -/
def speedStore (q : ℚ) : Nat := (⌊q⌋).toNat % 256

/-- `SIM868_gnss_get_data` on the captured RMC sentence (the contents of
`g_gnss_buffer`): tokenize with `strtok(..., ",")`, decode time, position,
speed and date, and apply the UTC-6 normalization.  The C function returns
early (having already stored the earlier outputs) when a token is missing;
the embedding returns the outputs of a run that reaches the end. -/
def SIM868_gnss_get_data (buffer : List Char) : Option GnssData :=
  match strtokAll buffer with
  | _mode :: timeTok :: _fixid :: latTok :: latDir :: lonTok :: lonDir ::
      speedTok :: _track :: dateTok :: _rest =>
      let seconds := twoDigit timeTok 4
      let minutes := twoDigit timeTok 2
      let hour0 := twoDigit timeTok 0
      let hour1 := bumpHour minutes hour0
      let (hour2, one_more_day) := utcOffsetHour hour1
      let latRaw := degMinDecode (atofQ latTok)
      let lat := if latDir.headD ' ' = 'S' then -latRaw else latRaw
      let lonRaw := degMinDecode (atofQ lonTok)
      let lon := if lonDir.headD ' ' = 'W' then -lonRaw else lonRaw
      let speed := speedStore (atofQ speedTok * (1852 / 1000 : ℚ))
      let day0 := twoDigit dateTok 0
      let month0 := twoDigit dateTok 2
      let year0 := twoDigit dateTok 4
      let (day, month, year) :=
        if one_more_day then rollbackDate day0 month0 year0
        else (day0, month0, year0)
      some { lat := lat, lon := lon, speed_kph := speed,
             time := { seconds := seconds, minutes := minutes,
                       hour := hour2, day := day, month := month,
                       year := year } }
  | _ => none

/-! ## Definitions supporting the claim statements -/

/-- The payload-declaration command the specification describes: it
declares exactly the length `n` of the JSON payload (spec wording; the
source instead hard-codes `200`). -/
def httpDataCmdOfLen (n : Nat) : String :=
  "AT+HTTPDATA=" ++ toString n ++ ",8000"

/-- `parse_reply` as the specification words it: locate the token, skip
`index` dividers, then take the integer value of the following field
*extending up to the next divider or end-of-string* (no `strtok`). -/
def parse_reply_claimed (buffer token : String) (divider : Char)
    (index : Nat) : ParseResult :=
  match strstrAfter buffer.data token.data with
  | none => ParseResult.replyError
  | some p =>
      match skipDividers p divider index with
      | none => ParseResult.replyError
      | some q =>
          ParseResult.ok (toU16 (atoi (q.takeWhile (fun c => c ≠ divider))))

/-- The prefix of `SIM868_gprs_enable` up to and including the bearer
query, re-traced from the source: `some (bearer_state, state-after-query)`
when the run reaches `gprs_query`, `none` when it returns earlier. -/
def gprs_enable_bearer_query (state : Bool) (s : SimState) :
    Option (Nat × SimState) :=
  match send_parse_reply "AT+CGATT?" "+CGATT: " ',' 0 s with
  | (none, _) => none
  | (some module_state, s₁) =>
      let attach := state ∧ module_state = 0
      let (attachFail, s₂) :=
        if attach then send_check_reply "AT+CGATT=1" "OK" s₁
        else (false, s₁)
      if attachFail then none else some (gprs_query s₂)

/-- `k` successive runs of `http_init` from `s` (the states the Init retry
loop walks through when every attempt fails). -/
def initIter (hdr : Http_Header) (s : SimState) : Nat → SimState
  | 0 => s
  | k + 1 => (http_init hdr (initIter hdr s k)).2

/-! ## Shared helper lemmas -/

lemma send_parse_reply_snd (at_ reply : String) (d : Char) (i : Nat)
    (s : SimState) :
    (send_parse_reply at_ reply d i s).2 = get_reply at_ s := by
  unfold send_parse_reply
  dsimp only
  split <;> rfl

lemma send_parse_reply_fst (at_ reply : String) (d : Char) (i : Nat)
    (s : SimState) :
    (send_parse_reply at_ reply d i s).1 =
      match parse_reply (s.replies.headD "") reply d i with
      | ParseResult.ok v => some v
      | ParseResult.replyError => none
      | ParseResult.undef => none := by
  unfold send_parse_reply get_reply
  dsimp only
  split <;> simp_all

lemma gprs_query_snd (s : SimState) :
    (gprs_query s).2 = get_reply "AT+SAPBR=2,1" s := by
  unfold gprs_query
  rcases hsp : send_parse_reply "AT+SAPBR=2,1" "+SAPBR: " ',' 1 s with ⟨r, s'⟩
  have h2 : s' = get_reply "AT+SAPBR=2,1" s := by
    have h := send_parse_reply_snd "AT+SAPBR=2,1" "+SAPBR: " ',' 1 s
    rw [hsp] at h; exact h
  cases r <;> dsimp only <;> exact h2

lemma regPoll_replies (st err : Nat) (s : SimState) :
    (regPoll st err s).2.2.replies = s.replies.tail := by
  unfold regPoll
  rcases hsp : send_parse_reply "AT+CREG?" "+CREG: " ',' 1 s with ⟨r, s'⟩
  have h2 : s' = get_reply "AT+CREG?" s := by
    have h := send_parse_reply_snd "AT+CREG?" "+CREG: " ',' 1 s
    rw [hsp] at h; exact h
  dsimp only
  rw [h2]
  rfl

lemma regPoll_last (st err v : Nat) (s : SimState)
    (hp : parse_reply (s.replies.headD "") "+CREG: " ',' 1 =
      ParseResult.ok v) :
    (regPoll st err s).2.1 =
      if v = 0 then ERROR_NETWORK_REGISTRATION
      else if v = 1 then NO_ERROR
      else if v = 5 then NO_ERROR
      else if v = 2 then err
      else if v = 3 then err
      else ERROR_REPLY := by
  unfold regPoll
  rcases hsp : send_parse_reply "AT+CREG?" "+CREG: " ',' 1 s with ⟨r, s'⟩
  have h1 : r = some v := by
    have h := send_parse_reply_fst "AT+CREG?" "+CREG: " ',' 1 s
    rw [hsp, hp] at h
    exact h
  subst h1
  simp [NOT_REGISTERED, REGISTERED_HOME_NET, REGISTRED_NO_HOME_NET,
    SEARCHING, REGISTRATION_DENIED, NO_ERROR, ERROR_NETWORK_REGISTRATION,
    ERROR_REPLY]

lemma regInner_30 (st err : Nat) (s : SimState) :
    regInner 30 (st, err, s) =
      regPoll (regPoll st err s).1 (regPoll st err s).2.1
        (regPoll st err s).2.2 := by
  rw [regInner]
  rcases h : regPoll st err s with ⟨a, b, c⟩
  norm_num
  rw [regInner]
  norm_num
  rw [regInner]

lemma gsm_eq_four_polls (st err : Nat) (s : SimState) :
    gsm_network_registration st err s =
      (let p1 := regPoll st err s
       let p2 := regPoll p1.1 p1.2.1 p1.2.2
       let p3 := regPoll p2.1 p2.2.1 p2.2.2
       let p4 := regPoll p3.1 p3.2.1 p3.2.2
       (p4.2.1, p4.2.2)) := by
  unfold gsm_network_registration
  rw [regInner_30]
  rcases h2 : regPoll (regPoll st err s).1 (regPoll st err s).2.1
      (regPoll st err s).2.2 with ⟨a, b, c⟩
  dsimp only
  rw [regInner_30]
  rw [h2]

lemma http_init_counts (hdr : Http_Header) (s : SimState) :
    (http_init hdr s).2.initCalls = s.initCalls + 1 ∧
    (http_init hdr s).2.startCalls = s.startCalls := by
  unfold http_init send_check_reply get_reply
  constructor <;>
    simp only [apply_ite (fun p : Nat × SimState => p.2.initCalls),
      apply_ite (fun p : Nat × SimState => p.2.startCalls)] <;>
    simp

lemma initIter_shift (hdr : Http_Header) (s : SimState) (k : Nat) :
    initIter hdr (http_init hdr s).2 k = initIter hdr s (k + 1) := by
  induction k with
  | zero => rfl
  | succ k ih =>
      show (http_init hdr (initIter hdr (http_init hdr s).2 k)).2 = _
      rw [ih]; rfl

lemma initIter_counts (hdr : Http_Header) (s : SimState) (n : Nat) :
    (initIter hdr s n).initCalls = s.initCalls + n ∧
    (initIter hdr s n).startCalls = s.startCalls := by
  induction n with
  | zero => exact ⟨rfl, rfl⟩
  | succ n ih =>
      have h := http_init_counts hdr (initIter hdr s n)
      refine ⟨?_, ?_⟩
      · rw [show initIter hdr s (n + 1) =
            (http_init hdr (initIter hdr s n)).2 from rfl, h.1, ih.1]
        omega
      · rw [show initIter hdr s (n + 1) =
            (http_init hdr (initIter hdr s n)).2 from rfl, h.2, ih.2]

lemma initLoop_all_fail (hdr : Http_Header) (m : Nat) :
    ∀ (s : SimState) (e : Option Nat),
      (∀ k, k < m + 1 → (http_init hdr (initIter hdr s k)).1 ≠ NO_ERROR) →
      initLoop hdr e (m + 1) s =
        LoopResult.exit ERROR_HTTP_SERVICE (initIter hdr s (m + 1)) := by
  induction m with
  | zero =>
      intro s e hfail
      show (let p := http_init hdr s
            if p.1 = NO_ERROR then LoopResult.done (some p.1) p.2
            else if (0 : Nat) = 0 then LoopResult.exit ERROR_HTTP_SERVICE p.2
            else initLoop hdr (some p.1) 0 p.2) = _
      have h0 := hfail 0 (by omega)
      simp only [initIter] at h0 ⊢
      simp [h0]
  | succ m ih =>
      intro s e hfail
      have h0 := hfail 0 (by omega)
      simp only [initIter] at h0
      show (let p := http_init hdr s
            if p.1 = NO_ERROR then LoopResult.done (some p.1) p.2
            else if m + 1 = 0 then LoopResult.exit ERROR_HTTP_SERVICE p.2
            else initLoop hdr (some p.1) (m + 1) p.2) = _
      simp only [h0, if_false]
      have hrec := ih (http_init hdr s).2 (some (http_init hdr s).1)
        (fun k hk => by
          rw [initIter_shift]
          exact hfail (k + 1) (by omega))
      simp [h0, hrec, initIter_shift]

lemma strchrNext_none_iff (s : List Char) (d : Char) :
    strchrNext s d = none ↔ d ∉ s := by
  induction s with
  | nil => simp [strchrNext]
  | cons c tl ih =>
      by_cases hc : c = d
      · subst hc; simp [strchrNext]
      · simp [strchrNext, hc, ih]
        exact fun _ hdc => hc hdc.symm

lemma strchrNext_count (s : List Char) (d : Char) (rest : List Char)
    (h : strchrNext s d = some rest) :
    s.count d = rest.count d + 1 := by
  induction s with
  | nil => simp [strchrNext] at h
  | cons c tl ih =>
      by_cases hc : c = d
      · subst hc
        simp [strchrNext] at h
        subst h
        simp [List.count_cons]
      · simp [strchrNext, hc] at h
        have := ih h
        simp [List.count_cons, this]
        exact hc

lemma skipDividers_none_iff (d : Char) (n : Nat) :
    ∀ s : List Char, skipDividers s d n = none ↔ s.count d < n := by
  induction n with
  | zero => intro s; simp [skipDividers]
  | succ n ih =>
      intro s
      rcases hc : strchrNext s d with _ | rest
      · have hnotin := (strchrNext_none_iff s d).mp hc
        simp [skipDividers, hc]
        have : s.count d = 0 := List.count_eq_zero.mpr hnotin
        omega
      · have hcount := strchrNext_count s d rest hc
        simp [skipDividers, hc, ih rest]
        omega

lemma gprs_enable_connected_sent (cfg : Bearer_Service) (s : SimState)
    (hq : (gprs_enable_bearer_query true s).map Prod.fst = some CONNECTED) :
    (SIM868_gprs_enable cfg true s).2.sent =
        s.sent ++ ["AT+CGATT?", "AT+SAPBR=2,1"] ∨
    (SIM868_gprs_enable cfg true s).2.sent =
        s.sent ++ ["AT+CGATT?", "AT+CGATT=1", "AT+SAPBR=2,1"] := by
  unfold gprs_enable_bearer_query at hq
  unfold SIM868_gprs_enable
  rcases hsp : send_parse_reply "AT+CGATT?" "+CGATT: " ',' 0 s with ⟨r, s₁⟩
  have hs₁ : s₁ = get_reply "AT+CGATT?" s := by
    have h := send_parse_reply_snd "AT+CGATT?" "+CGATT: " ',' 0 s
    rw [hsp] at h; exact h
  rw [hsp] at hq
  cases r with
  | none => simp at hq
  | some m =>
      dsimp only at hq ⊢
      by_cases hm : m = 0
      · simp only [hm, send_check_reply] at hq ⊢
        by_cases hfail : (get_reply "AT+CGATT=1" s₁).buffer = "OK"
        · rcases hgq : gprs_query (get_reply "AT+CGATT=1" s₁) with ⟨b, s₃⟩
          simp only [hfail, hgq, decide_True, Bool.not_true,
            Bool.false_eq_true, if_true, if_false, and_self,
            eq_self_iff_true] at hq ⊢
          simp at hq
          subst hq
          have hne1 : ¬ (True ∧ CONNECTED = CLOSED) := by
            simp [CONNECTED, CLOSED]
          rw [if_neg hne1]
          have h3 : s₃ =
              get_reply "AT+SAPBR=2,1" (get_reply "AT+CGATT=1" s₁) := by
            have h := gprs_query_snd (get_reply "AT+CGATT=1" s₁)
            rw [hgq] at h; exact h
          right
          simp [h3, hs₁, get_reply]
        · simp [hfail] at hq
      · have hcond : ¬ (True ∧ m = 0) := by simp [hm]
        simp only [send_check_reply] at hq ⊢
        rw [if_neg hcond] at hq ⊢
        dsimp only at hq ⊢
        simp only [Bool.false_eq_true, if_false] at hq ⊢
        rcases hgq : gprs_query s₁ with ⟨b, s₃⟩
        simp only [hgq] at hq ⊢
        simp at hq
        subst hq
        have h3 : s₃ = get_reply "AT+SAPBR=2,1" s₁ := by
          have h := gprs_query_snd s₁
          rw [hgq] at h; exact h
        left
        simp [CONNECTED, CLOSED, h3, hs₁, get_reply]

lemma gprs_enable_closed_sent (cfg : Bearer_Service) (s : SimState)
    (hq : (gprs_enable_bearer_query false s).map Prod.fst = some CLOSED) :
    (SIM868_gprs_enable cfg false s).2.sent =
        s.sent ++ ["AT+CGATT?", "AT+SAPBR=2,1"] ∨
    (SIM868_gprs_enable cfg false s).2.sent =
        s.sent ++ ["AT+CGATT?", "AT+SAPBR=2,1", "AT+CGATT=0"] := by
  unfold gprs_enable_bearer_query at hq
  unfold SIM868_gprs_enable
  rcases hsp : send_parse_reply "AT+CGATT?" "+CGATT: " ',' 0 s with ⟨r, s₁⟩
  have hs₁ : s₁ = get_reply "AT+CGATT?" s := by
    have h := send_parse_reply_snd "AT+CGATT?" "+CGATT: " ',' 0 s
    rw [hsp] at h; exact h
  rw [hsp] at hq
  cases r with
  | none => simp at hq
  | some m =>
      dsimp only at hq ⊢
      simp only [send_check_reply] at hq ⊢
      have hcond : ¬ ((false = true) ∧ m = 0) := by simp
      rw [if_neg hcond] at hq ⊢
      dsimp only at hq ⊢
      simp only [Bool.false_eq_true, if_false] at hq ⊢
      rcases hgq : gprs_query s₁ with ⟨b, s₃⟩
      simp only [hgq] at hq ⊢
      simp at hq
      subst hq
      have h3 : s₃ = get_reply "AT+SAPBR=2,1" s₁ := by
        have h := gprs_query_snd s₁
        rw [hgq] at h; exact h
      have hne1 : ¬ (False ∧ CLOSED = CLOSED) := by simp
      rw [if_neg hne1]
      by_cases hm : m = 0
      · left
        simp [hm, CONNECTED, CLOSED, h3, hs₁, get_reply]
      · right
        simp [hm, CONNECTED, CLOSED, h3, hs₁, get_reply]
        split <;> rfl

lemma short_ne_param_cmds (cfg : Bearer_Service) (c : String)
    (hlen : c.length < 21) :
    c ≠ apnCmd cfg ∧ c ≠ userCmd cfg ∧ c ≠ pwdCmd cfg := by
  refine ⟨fun hc => ?_, fun hc => ?_, fun hc => ?_⟩
  · subst hc
    simp only [apnCmd, String.length_append,
      show ("AT+SAPBR=3,1,\"APN\",\"" : String).length = 20 from rfl,
      show ("\"" : String).length = 1 from rfl] at hlen
    omega
  · subst hc
    simp only [userCmd, String.length_append,
      show ("AT+SAPBR=3,1,\"USER\",\"" : String).length = 21 from rfl,
      show ("\"" : String).length = 1 from rfl] at hlen
    omega
  · subst hc
    simp only [pwdCmd, String.length_append,
      show ("AT+SAPBR=3,1,\"PWD\",\"" : String).length = 20 from rfl,
      show ("\"" : String).length = 1 from rfl] at hlen
    omega

lemma fixed_cmd_not_open (cfg : Bearer_Service) (c : String)
    (hlen : c.length < 21) (h1 : c ≠ contypeCmd) (h5 : c ≠ openBearerCmd) :
    c ∉ [contypeCmd, apnCmd cfg, userCmd cfg, pwdCmd cfg, openBearerCmd] := by
  obtain ⟨ha, hu, hp⟩ := short_ne_param_cmds cfg c hlen
  simp [h1, ha, hu, hp, h5]

/-! ## Claim C1 — RSSI window check -/

/-- Claim C1, counterexample: the reply `"+CSQ: 5,0"` parses to RSSI 5,
which lies outside the window `[9, 32)`, yet `gprs_network_rssi` returns
`NO_ERROR`, not `ERROR_NETWORK_RSSI` — the source's test
`state < 9 && state > 32` can never hold. -/
theorem rssi_window_counterexample :
    (send_parse_reply "AT+CSQ" "+CSQ: " ',' 0
        ⟨["+CSQ: 5,0"], "", [], 0, "", 0, 0⟩).1 = some 5 ∧
    ¬ (9 ≤ 5 ∧ 5 < 32) ∧
    (gprs_network_rssi ⟨["+CSQ: 5,0"], "", [], 0, "", 0, 0⟩).1 = NO_ERROR ∧
    NO_ERROR ≠ ERROR_NETWORK_RSSI := by
  refine ⟨by decide, by decide, by decide, by decide⟩

/-- Claim C1, amended: for every RSSI value successfully parsed from the
`+CSQ` reply, `gprs_network_rssi` returns `NO_ERROR` — inside or outside
the documented window, because the window check is unsatisfiable. -/
theorem rssi_parse_ok_no_error (s : SimState) (v : Nat)
    (h : (send_parse_reply "AT+CSQ" "+CSQ: " ',' 0 s).1 = some v) :
    (gprs_network_rssi s).1 = NO_ERROR := by
  unfold gprs_network_rssi
  rcases hsp : send_parse_reply "AT+CSQ" "+CSQ: " ',' 0 s with ⟨r, s'⟩
  rw [hsp] at h
  cases r with
  | none => simp at h
  | some w =>
      dsimp only
      have hw : ¬ (w < 9 ∧ w > 32) := by omega
      rw [if_neg hw]

/-- Claim C1, witness: a concrete in-window reply (`"+CSQ: 20,0"`). -/
theorem rssi_parse_ok_no_error_witness :
    (gprs_network_rssi ⟨["+CSQ: 20,0"], "", [], 0, "", 0, 0⟩).1 =
      NO_ERROR :=
  rssi_parse_ok_no_error ⟨["+CSQ: 20,0"], "", [], 0, "", 0, 0⟩ 20 (by decide)

/-! ## Claim C2 — POST payload-length declaration -/

/-- Claim C2, counterexample: with a 10-byte JSON payload the first
command the POST branch sends is the literal `"AT+HTTPDATA=200,8000"`,
which is not the command declaring length 10 that the claim predicts. -/
theorem http_post_declared_length_counterexample :
    ((http_action POST ⟨"ua", "ud", "ct", "r", "ws", "0123456789"⟩
        ⟨["DOWNLOAD", "OK", "OK", "+HTTPACTION: 1,200,0"], "", [], 0, "", 0,
          0⟩).2.sent.headD "") = httpDataCmd ∧
    ("0123456789" : String).length = 10 ∧
    httpDataCmd ≠ httpDataCmdOfLen 10 := by
  refine ⟨by decide, by decide, by decide⟩

/-- Claim C2, amended: for every POST request, `http_action` first sends
the fixed payload declaration `"AT+HTTPDATA=200,8000"` — length 200 and an
8000 ms upload window regardless of the stored `json_structure` — and,
when the modem answers `"DOWNLOAD"`, streams the JSON payload as the next
command. -/
theorem http_action_post_declares_200 (hdr : Http_Header) (s : SimState) :
    ((http_action POST hdr s).2.sent.drop s.sent.length).head? =
      some httpDataCmd ∧
    (s.replies.headD "" = "DOWNLOAD" →
      (((http_action POST hdr s).2.sent.drop s.sent.length).drop 1).head? =
        some hdr.json_structure) ∧
    httpDataCmd = httpDataCmdOfLen 200 := by
  refine ⟨?_, fun hdl => ?_, by decide⟩
  · unfold http_action send_check_reply get_reply read_line_capture
    dsimp only
    repeat' split
    all_goals simp_all [List.drop_left, POST]
  · unfold http_action send_check_reply get_reply read_line_capture
    dsimp only
    repeat' split
    all_goals simp_all [List.drop_left, POST]

/-- Claim C2, witness: the concrete POST run with the 10-byte payload
does stream `"0123456789"` right after the fixed declaration. -/
theorem http_action_post_declares_200_witness :
    (((http_action POST ⟨"ua", "ud", "ct", "r", "ws", "0123456789"⟩
        ⟨["DOWNLOAD", "OK", "OK", "+HTTPACTION: 1,200,0"], "", [], 0, "", 0,
          0⟩).2.sent.drop 0).drop 1).head? = some "0123456789" :=
  (http_action_post_declares_200 ⟨"ua", "ud", "ct", "r", "ws", "0123456789"⟩
    ⟨["DOWNLOAD", "OK", "OK", "+HTTPACTION: 1,200,0"], "", [], 0, "", 0,
      0⟩).2.1 rfl

/-! ## Claim C3 — registration result is the last poll's status -/

/-- Claim C3: across the four `AT+CREG?` polls (2 rounds × 30 s / 15 s),
whatever the earlier polls returned and whatever garbage the uninitialized
`status`/`error_status` locals held, when the last poll parses to
`REGISTERED_HOME_NET` or `REGISTRED_NO_HOME_NET` the function returns
`NO_ERROR`, and when it parses to `NOT_REGISTERED` it returns
`ERROR_NETWORK_REGISTRATION`. -/
theorem gsm_registration_last_poll_decides (st0 err0 v : Nat) (s : SimState)
    (r0 r1 r2 r3 : String) (rest : List String)
    (hs : s.replies = r0 :: r1 :: r2 :: r3 :: rest)
    (hp : parse_reply r3 "+CREG: " ',' 1 = ParseResult.ok v) :
    ((v = REGISTERED_HOME_NET ∨ v = REGISTRED_NO_HOME_NET) →
      (gsm_network_registration st0 err0 s).1 = NO_ERROR) ∧
    (v = NOT_REGISTERED →
      (gsm_network_registration st0 err0 s).1 =
        ERROR_NETWORK_REGISTRATION) := by
  rw [gsm_eq_four_polls]
  dsimp only
  have h1 : (regPoll st0 err0 s).2.2.replies = r1 :: r2 :: r3 :: rest := by
    rw [regPoll_replies, hs]; rfl
  have h2 : (regPoll (regPoll st0 err0 s).1 (regPoll st0 err0 s).2.1
      (regPoll st0 err0 s).2.2).2.2.replies = r2 :: r3 :: rest := by
    rw [regPoll_replies, h1]; rfl
  have h3 : (regPoll (regPoll (regPoll st0 err0 s).1 (regPoll st0 err0 s).2.1
      (regPoll st0 err0 s).2.2).1 (regPoll (regPoll st0 err0 s).1
      (regPoll st0 err0 s).2.1 (regPoll st0 err0 s).2.2).2.1
      (regPoll (regPoll st0 err0 s).1 (regPoll st0 err0 s).2.1
      (regPoll st0 err0 s).2.2).2.2).2.2.replies = r3 :: rest := by
    rw [regPoll_replies, h2]; rfl
  have hlast := regPoll_last
    (regPoll (regPoll (regPoll st0 err0 s).1 (regPoll st0 err0 s).2.1
      (regPoll st0 err0 s).2.2).1 (regPoll (regPoll st0 err0 s).1
      (regPoll st0 err0 s).2.1 (regPoll st0 err0 s).2.2).2.1
      (regPoll (regPoll st0 err0 s).1 (regPoll st0 err0 s).2.1
      (regPoll st0 err0 s).2.2).2.2).1
    (regPoll (regPoll (regPoll st0 err0 s).1 (regPoll st0 err0 s).2.1
      (regPoll st0 err0 s).2.2).1 (regPoll (regPoll st0 err0 s).1
      (regPoll st0 err0 s).2.1 (regPoll st0 err0 s).2.2).2.1
      (regPoll (regPoll st0 err0 s).1 (regPoll st0 err0 s).2.1
      (regPoll st0 err0 s).2.2).2.2).2.1 v
    (regPoll (regPoll (regPoll st0 err0 s).1 (regPoll st0 err0 s).2.1
      (regPoll st0 err0 s).2.2).1 (regPoll (regPoll st0 err0 s).1
      (regPoll st0 err0 s).2.1 (regPoll st0 err0 s).2.2).2.1
      (regPoll (regPoll st0 err0 s).1 (regPoll st0 err0 s).2.1
      (regPoll st0 err0 s).2.2).2.2).2.2
    (by rw [h3]; simpa using hp)
  refine ⟨fun hv => ?_, fun hv => ?_⟩
  · rcases hv with hv | hv <;> subst hv <;> rw [hlast] <;> rfl
  · subst hv; rw [hlast]; rfl

/-- Claim C3, witness: earlier polls see SEARCHING, NOT_REGISTERED and
DENIED, the last poll sees REGISTERED_HOME_NET, and the function returns
`NO_ERROR` despite the earlier failure; the initial locals hold garbage
(77/88). -/
theorem gsm_registration_last_poll_decides_witness :
    (gsm_network_registration 77 88
        ⟨["+CREG: 0,2", "+CREG: 0,0", "+CREG: 0,3", "+CREG: 0,1"], "", [],
          0, "", 0, 0⟩).1 = NO_ERROR :=
  (gsm_registration_last_poll_decides 77 88 1
      ⟨["+CREG: 0,2", "+CREG: 0,0", "+CREG: 0,3", "+CREG: 0,1"], "", [],
        0, "", 0, 0⟩
      "+CREG: 0,2" "+CREG: 0,0" "+CREG: 0,3" "+CREG: 0,1" [] rfl
      (by decide)).1 (Or.inl rfl)

/-! ## Claim C4 — exhausting the HTTP-init retry budget -/

/-- Claim C4: when `http_init` fails on every attempt of a run with
`1 ≤ max_attempts ≤ 255`, `SIM868_http_send_request` calls `http_init`
exactly `max_attempts` times (ghost counter `initCalls`), returns
`ERROR_HTTP_SERVICE`, and never invokes `http_start` (ghost counter
`startCalls` unchanged), so no Action/ReadAll/Terminate step runs. -/
theorem http_send_request_init_exhaustion (method maxAttempts : Nat)
    (hdr : Http_Header) (s : SimState)
    (h1 : 1 ≤ maxAttempts) (h255 : maxAttempts ≤ 255)
    (hfail : ∀ k, k < maxAttempts →
      (http_init hdr (initIter hdr s k)).1 ≠ NO_ERROR) :
    SIM868_http_send_request method maxAttempts hdr s =
      (some ERROR_HTTP_SERVICE, initIter hdr s maxAttempts) ∧
    (initIter hdr s maxAttempts).initCalls = s.initCalls + maxAttempts ∧
    (initIter hdr s maxAttempts).startCalls = s.startCalls := by
  obtain ⟨m, rfl⟩ : ∃ m, maxAttempts = m + 1 := ⟨maxAttempts - 1, by omega⟩
  refine ⟨?_, (initIter_counts hdr s (m + 1)).1,
    (initIter_counts hdr s (m + 1)).2⟩
  unfold SIM868_http_send_request
  rw [initLoop_all_fail hdr m s none hfail]

/-- Claim C4, witness: with an empty reply script every `http_init`
attempt fails; with budget 2 the request returns `ERROR_HTTP_SERVICE`
after exactly two `http_init` calls and zero `http_start` calls. -/
theorem http_send_request_init_exhaustion_witness :
    SIM868_http_send_request 0 2 ⟨"ua", "ud", "ct", "r", "ws", "json"⟩
        ⟨[], "", [], 0, "", 0, 0⟩ =
      (some ERROR_HTTP_SERVICE,
        initIter ⟨"ua", "ud", "ct", "r", "ws", "json"⟩
          ⟨[], "", [], 0, "", 0, 0⟩ 2) ∧
    (initIter ⟨"ua", "ud", "ct", "r", "ws", "json"⟩
        ⟨[], "", [], 0, "", 0, 0⟩ 2).initCalls = 0 + 2 ∧
    (initIter ⟨"ua", "ud", "ct", "r", "ws", "json"⟩
        ⟨[], "", [], 0, "", 0, 0⟩ 2).startCalls = 0 :=
  http_send_request_init_exhaustion 0 2
    ⟨"ua", "ud", "ct", "r", "ws", "json"⟩ ⟨[], "", [], 0, "", 0, 0⟩
    (by decide) (by decide) (by decide)

/-! ## Claim C5 — speed conversion to the `uint8_t` output -/

/-- Claim C5, counterexample: an RMC sentence with a speed field of
`10.0` knots stores 18 through the `uint8_t *speed_kph` output, and 18 is
not within 0.01 of the claimed 18.52 (= 10 × 1.852). -/
theorem gnss_speed_counterexample :
    (SIM868_gnss_get_data
        "$GNRMC,120000.00,A,4916.45,N,12311.12,W,10.0,054.7,150817,,,A".data).map
      (fun d => d.speed_kph) = some 18 ∧
    ¬ ((1852 / 100 : ℚ) - 18 ≤ 1 / 100) := by
  constructor
  · have h1 : (SIM868_gnss_get_data
        "$GNRMC,120000.00,A,4916.45,N,12311.12,W,10.0,054.7,150817,,,A".data).map
          (fun d => d.speed_kph) =
        some (speedStore (atofQ "10.0".data * (1852 / 1000 : ℚ))) := rfl
    rw [h1]
    have h2 : atofQ "10.0".data = 10 := by
      rw [atofQ, show atofScan "10.0".data = (false, 10, 0, 1) from by decide]
      norm_num
    rw [speedStore, h2,
      show (⌊(10 : ℚ) * (1852 / 1000)⌋ : ℤ) = 18 from by
        rw [Int.floor_eq_iff]
        norm_num]
    rfl
  · norm_num

/-- Claim C5, amended: whenever `SIM868_gnss_get_data` completes, the
value stored through the `uint8_t *speed_kph` output is the integer
truncation of (knots × 1.852) of the sentence's speed field (the 8th
`strtok` token), not the real-valued product — so 10.0 knots stores 18. -/
theorem gnss_speed_truncated (buffer : List Char) :
    (SIM868_gnss_get_data buffer).map (fun d => d.speed_kph) = none ∨
    (SIM868_gnss_get_data buffer).map (fun d => d.speed_kph) =
      some ((⌊atofQ ((strtokAll buffer).getD 7 []) *
        (1852 / 1000 : ℚ)⌋).toNat % 256) := by
  unfold SIM868_gnss_get_data
  rcases h : strtokAll buffer with _ | ⟨m, _ | ⟨t, _ | ⟨f, _ | ⟨la, _ |
    ⟨ld, _ | ⟨lo, _ | ⟨lod, _ | ⟨sp, _ | ⟨tr, _ | ⟨da, rest⟩⟩⟩⟩⟩⟩⟩⟩⟩⟩
  all_goals simp [List.getD]
  rfl

/-! ## Claim C6 — reply parser field extraction -/

/-- Claim C6, counterexample: for the buffer `"+TOK: 1,,5"` with divider
`','` and field index 1 the field after skipping one divider is empty
(value 0 per the claim's wording, as `parse_reply_claimed` computes), but
the code's `strtok(p, ",")` skips the leading comma and returns 5. -/
theorem parse_reply_strtok_divergence :
    parse_reply "+TOK: 1,,5" "+TOK: " ',' 1 = ParseResult.ok 5 ∧
    parse_reply_claimed "+TOK: 1,,5" "+TOK: " ',' 1 = ParseResult.ok 0 ∧
    parse_reply "+TOK: 1,,5" "+TOK: " ',' 1 ≠
      parse_reply_claimed "+TOK: 1,,5" "+TOK: " ',' 1 := by
  refine ⟨by decide, by decide, by decide⟩

/-- Claim C6, amended: `parse_reply` fails with the reply error when the
token is absent and when fewer than `index` dividers follow the token's
end; otherwise, with `q` the remainder after skipping `index` dividers, it
returns `atoi q` when at most one character remains, and else applies
`strtok(q, ",")` — dropping leading `','` characters (regardless of the
divider argument) and taking the integer value of the first `','`-token,
with undefined behavior (`atoi(NULL)`) when `q` is commas only. -/
theorem parse_reply_characterization (buffer token : String) (divider : Char)
    (index : Nat) :
    (strstrAfter buffer.data token.data = none →
      parse_reply buffer token divider index = ParseResult.replyError) ∧
    (∀ p, strstrAfter buffer.data token.data = some p →
      p.count divider < index →
      parse_reply buffer token divider index = ParseResult.replyError) ∧
    (∀ p q, strstrAfter buffer.data token.data = some p →
      skipDividers p divider index = some q →
      parse_reply buffer token divider index =
        if q.length ≤ 1 then ParseResult.ok (toU16 (atoi q))
        else
          match q.dropWhile (fun c => c = ',') with
          | [] => ParseResult.undef
          | r =>
              ParseResult.ok
                (toU16 (atoi (r.takeWhile (fun c => c ≠ ','))))) := by
  refine ⟨fun h => ?_, fun p hp hcount => ?_, fun p q hp hq => ?_⟩
  · unfold parse_reply
    rw [h]
  · unfold parse_reply
    rw [hp]
    dsimp only
    rw [(skipDividers_none_iff divider index p).mpr hcount]
  · unfold parse_reply
    rw [hp]
    dsimp only
    rw [hq]
    dsimp only
    by_cases hlen : q.length ≤ 1
    · rw [if_neg (show ¬ q.length > 1 by omega), if_pos hlen]
    · rw [if_pos (show q.length > 1 by omega), if_neg hlen]
      unfold strtokFirst
      rcases hdrop : q.dropWhile (fun c => c = ',') with _ | ⟨c, r⟩
      · simp [hdrop]
      · simp [hdrop]

/-- Claim C6, witness: the three amended clauses at concrete inputs —
token absent, dividers exhausted, and an all-comma remainder hitting the
undefined-behavior branch. -/
theorem parse_reply_characterization_witness :
    parse_reply "nothing" "+TOK: " ',' 0 = ParseResult.replyError ∧
    parse_reply "+TOK: 1,2" "+TOK: " ',' 5 = ParseResult.replyError ∧
    parse_reply "+TOK: ,," "+TOK: " ',' 0 = ParseResult.undef := by
  refine ⟨(parse_reply_characterization "nothing" "+TOK: " ',' 0).1
      (by decide),
    (parse_reply_characterization "+TOK: 1,2" "+TOK: " ',' 5).2.1
      "1,2".data (by decide) (by decide), ?_⟩
  have h := (parse_reply_characterization "+TOK: ,," "+TOK: " ',' 0).2.2
    ",,".data ",,".data (by decide) (by decide)
  rw [h]
  decide

/-! ## Claim C7 — line-reader buffer safety -/

set_option maxRecDepth 100000 in
/-- Claim C7: the buffer-safety claim fails.  With 255 buffered bytes the
closing NUL store lands at index 255 — one past the 255-byte
`g_sim_buffer` (valid indices 0..254); with 257 incoming bytes a data
store also lands at index 255 and the `uint8_t` index wraps, overwriting
index 0.  The source's capacity guard `reply_idx > REPLY_BUFFER_LENGTH`
can never fire on a `uint8_t` index. -/
theorem read_line_write_out_of_bounds :
    (read_line 2 false [List.replicate 255 'a']).termIdx =
      REPLY_BUFFER_LENGTH ∧
    ¬ ((read_line 2 false [List.replicate 255 'a']).termIdx <
        REPLY_BUFFER_LENGTH) ∧
    (255, 'a') ∈ (read_line 1 false [List.replicate 257 'a']).writes ∧
    (0, 'a') ∈ (read_line 1 false [List.replicate 257 'a']).writes.drop 256 := by
  refine ⟨by decide, by decide, by decide, by decide⟩

/-! ## Claim C8 — bearer idempotence -/

/-- Claim C8: `SIM868_gprs_enable` is idempotent with respect to the
bearer context.  When `enable(true)` finds the queried bearer state
already `CONNECTED`, no command of the open sequence (connection-type,
APN, username, password, open-bearer) appears among the newly sent
commands; when `enable(false)` finds the queried state already `CLOSED`,
the close-bearer command is not sent. -/
theorem gprs_enable_idempotent (cfg : Bearer_Service) (s : SimState) :
    ((gprs_enable_bearer_query true s).map Prod.fst = some CONNECTED →
      ∀ c ∈ (SIM868_gprs_enable cfg true s).2.sent.drop s.sent.length,
        c ∉ [contypeCmd, apnCmd cfg, userCmd cfg, pwdCmd cfg,
          openBearerCmd]) ∧
    ((gprs_enable_bearer_query false s).map Prod.fst = some CLOSED →
      closeBearerCmd ∉
        (SIM868_gprs_enable cfg false s).2.sent.drop s.sent.length) := by
  constructor
  · intro hq c hc
    rcases gprs_enable_connected_sent cfg s hq with h | h <;>
      rw [h, List.drop_left] at hc <;> simp at hc
    · rcases hc with rfl | rfl
      · exact fixed_cmd_not_open cfg _ (by decide) (by decide) (by decide)
      · exact fixed_cmd_not_open cfg _ (by decide) (by decide) (by decide)
    · rcases hc with rfl | rfl | rfl
      · exact fixed_cmd_not_open cfg _ (by decide) (by decide) (by decide)
      · exact fixed_cmd_not_open cfg _ (by decide) (by decide) (by decide)
      · exact fixed_cmd_not_open cfg _ (by decide) (by decide) (by decide)
  · intro hq
    rcases gprs_enable_closed_sent cfg s hq with h | h <;>
      rw [h, List.drop_left] <;> decide

/-- Claim C8, witness: a run of `enable(true)` that finds the bearer
CONNECTED never sends the connection-type command, and a run of
`enable(false)` that finds it CLOSED never sends the close command. -/
theorem gprs_enable_idempotent_witness :
    contypeCmd ∉ (SIM868_gprs_enable ⟨"apn", "user", "pwd"⟩ true
        ⟨["+CGATT: 1", "+SAPBR: 1,1"], "", [], 0, "", 0, 0⟩).2.sent.drop 0 ∧
    closeBearerCmd ∉ (SIM868_gprs_enable ⟨"apn", "user", "pwd"⟩ false
        ⟨["+CGATT: 0", "+SAPBR: 1,3"], "", [], 0, "", 0, 0⟩).2.sent.drop 0 :=
  ⟨fun hmem =>
      (gprs_enable_idempotent ⟨"apn", "user", "pwd"⟩
          ⟨["+CGATT: 1", "+SAPBR: 1,1"], "", [], 0, "", 0, 0⟩).1
        (by decide) contypeCmd hmem (by decide),
    (gprs_enable_idempotent ⟨"apn", "user", "pwd"⟩
        ⟨["+CGATT: 0", "+SAPBR: 1,3"], "", [], 0, "", 0, 0⟩).2 (by decide)⟩

/-! ## Claim C9 — GNSS date/time normalization -/

/-- Claim C9: the minute-59 speculative hour bump (23 wrapping to 0)
precedes the UTC-6 offset; hours below 6 map through the
`g_utc_hours`/`g_fix_hours` tables (hour 0 → 18) and mark the previous-day
rollback, hours ≥ 6 are shifted by 6; on rollback with day 1, March 1
becomes February 28 for *every* year (no leap-year adjustment) and
January 1 becomes December 31 with the year decremented; end to end, UTC
`235959` on 01-03-17 parses to 18:59:59 on 28-02-17 local. -/
theorem gnss_datetime_normalization :
    (∀ h, h < 23 → bumpHour 59 h = h + 1) ∧
    bumpHour 59 23 = 0 ∧
    (∀ h, h < 6 → utcOffsetHour h = (h + 18, true)) ∧
    (∀ h, 6 ≤ h → utcOffsetHour h = (h - 6, false)) ∧
    (∀ y, rollbackDate 1 3 y = (28, 2, y)) ∧
    (∀ y, 1 ≤ y → y ≤ 255 → rollbackDate 1 1 y = (31, 12, y - 1)) ∧
    (SIM868_gnss_get_data
        "$GNRMC,235959.00,A,4916.45,N,12311.12,W,10.0,054.7,010317,,,A".data).map
      (fun d => d.time) = some ⟨59, 59, 18, 28, 2, 17⟩ := by
  refine ⟨fun h hh => ?_, rfl, fun h hh => ?_, fun h hh => ?_,
    fun y => rfl, fun y h1 h255 => ?_, by decide⟩
  · simp [bumpHour, hh]
  · interval_cases h <;> rfl
  · simp [utcOffsetHour, hh]
  · show (31, 12, (y + 255) % 256) = (31, 12, y - 1)
    have hmod : (y + 255) % 256 = y - 1 := by omega
    rw [hmod]

/-- Claim C9, witness: the quantified parts at concrete hours and
years — including a leap year (2016, stored as 16), where March 1 still
rolls back to February 28. -/
theorem gnss_datetime_normalization_witness :
    bumpHour 59 22 = 23 ∧ utcOffsetHour 0 = (18, true) ∧
    utcOffsetHour 6 = (0, false) ∧ rollbackDate 1 3 16 = (28, 2, 16) ∧
    rollbackDate 1 1 17 = (31, 12, 16) :=
  ⟨gnss_datetime_normalization.1 22 (by decide),
    gnss_datetime_normalization.2.2.1 0 (by decide),
    gnss_datetime_normalization.2.2.2.1 6 (by decide),
    gnss_datetime_normalization.2.2.2.2.1 16,
    gnss_datetime_normalization.2.2.2.2.2.1 17 (by decide) (by decide)⟩

/-! ## Claim C10 — zero retry budget -/

/-- Claim C10: with `max_attempts = 0` both `while (attempts--)` loops
test 0 and exit before their bodies run, so `http_init` and `http_start`
are never invoked, no command is sent, and the state — session buffer,
HTTP status code and buffer, ghost call counters — is returned untouched;
the returned `error_status` is the uninitialized local, modelled as
`none`, so it is produced by neither loop's exhaustion branch. -/
theorem http_send_request_zero_attempts (method : Nat) (hdr : Http_Header)
    (s : SimState) :
    SIM868_http_send_request method 0 hdr s = (none, s) ∧
    (none : Option Nat) ≠ some ERROR_HTTP_SERVICE ∧
    (none : Option Nat) ≠ some ERROR_HTTP_REQUEST := by
  refine ⟨?_, by decide, by decide⟩
  unfold SIM868_http_send_request initLoop startLoop
  rfl

end SIM868
